import Mathlib

/-!
Verification of the scene serialization pipeline of a Blender-to-JSON scene
exporter. Python strings are embedded as `List Char` (`Str`), Python floats
as exact rationals (`ℚ`); Python dicts as insertion-ordered association
lists with update-in-place semantics. Each definition is a shallow embedding
of the correspondingly named Python function; doc comments name the source
file. Transcendental computations (radians-to-degrees of spot angles, vector
normalization, Euler decomposition of rotations) are not expressible over ℚ
and are kept at the matrix level: instances carry the matrix that the code
decomposes, whose translation column the code extracts exactly.
-/

/-- Embedding of Python `str` as a list of characters. -/
abbrev Str := List Char

/-- Python `s.replace(old, new)` for single-character `old`/`new`. -/
def pyReplaceChar (s : Str) (old new : Char) : Str :=
  s.map (fun c => if c = old then new else c)

/-- The invalid-character list `'<>:"/\\|?*'` shared by every copy of
`sanitize_filename` in the repository. -/
def invalid_chars : Str := ['<', '>', ':', '"', '/', '\\', '|', '?', '*']

/-- Python `s.strip(chars)`: remove leading and trailing characters that are
members of `chars`. -/
def pyStrip (s : Str) (chars : Str) : Str :=
  ((s.dropWhile chars.contains).reverse.dropWhile chars.contains).reverse

/-- Embedding of `sanitize_filename` from `scene_builder.py` (identical copies live in
`mesh_exporter.py`, `material_exporter.py`, `texture_exporter.py`): replace
each invalid character by `'_'` (a fold of `str.replace` calls over
`invalid_chars`), then `name.strip('. ')`. -/
def sanitize_filename (name : Str) : Str :=
  pyStrip (invalid_chars.foldl (fun acc c => pyReplaceChar acc c '_') name) ['.', ' ']

/-- Pointwise form of the replacement chain in `sanitize_filename`. -/
def sanitizeChar (c : Char) : Char :=
  if c ∈ invalid_chars then '_' else c

theorem replace_chain_eq_map (name : Str) :
    invalid_chars.foldl (fun acc c => pyReplaceChar acc c '_') name
      = name.map sanitizeChar := by
  simp only [invalid_chars, List.foldl_cons, List.foldl_nil, pyReplaceChar, List.map_map]
  apply List.map_congr_left
  intro c _
  by_cases hmem : c ∈ invalid_chars
  · simp only [invalid_chars, List.mem_cons, List.not_mem_nil, or_false] at hmem
    rcases hmem with rfl | rfl | rfl | rfl | rfl | rfl | rfl | rfl | rfl <;> decide
  · have hmem2 := hmem
    simp only [invalid_chars, List.mem_cons, List.not_mem_nil, or_false, not_or] at hmem2
    obtain ⟨n1, n2, n3, n4, n5, n6, n7, n8, n9⟩ := hmem2
    simp [Function.comp, sanitizeChar, hmem, n1, n2, n3, n4, n5, n6, n7, n8, n9]

theorem sanitizeChar_not_invalid (c : Char) : sanitizeChar c ∉ invalid_chars := by
  unfold sanitizeChar
  split
  · decide
  · assumption

theorem map_sanitizeChar_of_no_invalid (l : Str) (h : ∀ c ∈ l, c ∉ invalid_chars) :
    l.map sanitizeChar = l := by
  induction l with
  | nil => rfl
  | cons c t ih =>
      have hc : c ∉ invalid_chars := h c (List.mem_cons_self c t)
      simp only [List.map_cons, sanitizeChar, if_neg hc]
      rw [ih (fun x hx => h x (List.mem_cons_of_mem c hx))]

theorem dropWhile_idem (p : Char → Bool) (l : Str) :
    (l.dropWhile p).dropWhile p = l.dropWhile p := by
  induction l with
  | nil => rfl
  | cons c t ih =>
      by_cases h : p c
      · rw [List.dropWhile_cons_of_pos h, ih]
      · rw [List.dropWhile_cons_of_neg h, List.dropWhile_cons_of_neg h]

theorem dropWhile_sublist (p : Char → Bool) (l : Str) : (l.dropWhile p).Sublist l := by
  induction l with
  | nil => exact List.Sublist.refl _
  | cons c t ih =>
      by_cases h : p c
      · rw [List.dropWhile_cons_of_pos h]
        exact ih.trans (List.sublist_cons_self c t)
      · rw [List.dropWhile_cons_of_neg h]

theorem dropWhile_suffix (p : Char → Bool) (l : Str) : l.dropWhile p <:+ l := by
  induction l with
  | nil => exact List.suffix_refl _
  | cons c t ih =>
      by_cases h : p c
      · rw [List.dropWhile_cons_of_pos h]
        exact ih.trans (List.suffix_cons c t)
      · rw [List.dropWhile_cons_of_neg h]

theorem pyStrip_sublist (s chars : Str) : (pyStrip s chars).Sublist s := by
  unfold pyStrip
  have h1 : ((s.dropWhile chars.contains).reverse.dropWhile chars.contains).Sublist
      (s.dropWhile chars.contains).reverse := dropWhile_sublist _ _
  have h2 := h1.reverse
  simp only [List.reverse_reverse] at h2
  exact h2.trans (dropWhile_sublist _ s)

theorem pyStrip_idem (s chars : Str) : pyStrip (pyStrip s chars) chars = pyStrip s chars := by
  unfold pyStrip
  have hm : (s.dropWhile chars.contains).dropWhile chars.contains
      = s.dropWhile chars.contains := dropWhile_idem _ _
  generalize hmdef : s.dropWhile chars.contains = m at hm
  -- r is the back-stripped reverse; pyStrip s chars = r.reverse
  generalize hrdef : m.reverse.dropWhile chars.contains = r
  -- r.reverse is a prefix of m
  have hsuf : r <:+ m.reverse := hrdef ▸ dropWhile_suffix _ _
  have hpre : r.reverse <+: m := by
    rcases hsuf with ⟨u, hu⟩
    refine ⟨u.reverse, ?_⟩
    have := congrArg List.reverse hu
    simpa using this
  have hfront : r.reverse.dropWhile chars.contains = r.reverse := by
    rcases hr : r.reverse with _ | ⟨c, t⟩
    · rfl
    · -- head of r.reverse is the head of m, which survives m's own dropWhile
      rcases hpre with ⟨u, hu⟩
      rw [hr] at hu
      have hmc : m = c :: (t ++ u) := by rw [← hu]; rfl
      have hnc : chars.contains c = false := by
        have h2 := hm
        rw [hmc] at h2
        by_cases hb : chars.contains c = true
        · rw [List.dropWhile_cons_of_pos hb] at h2
          have hlen := congrArg List.length h2
          rw [List.length_cons] at hlen
          have hle := (dropWhile_sublist chars.contains (t ++ u)).length_le
          omega
        · exact Bool.eq_false_iff.mpr hb
      rw [List.dropWhile_cons_of_neg
        (fun hcon => by rw [hnc] at hcon; exact Bool.false_ne_true hcon)]
  rw [hfront, List.reverse_reverse]
  have hridem : r.dropWhile chars.contains = r := by
    rw [← hrdef, dropWhile_idem]
  rw [hridem]

/-- The map-then-strip normal form of `sanitize_filename`. -/
theorem sanitize_filename_eq (name : Str) :
    sanitize_filename name = pyStrip (name.map sanitizeChar) ['.', ' '] := by
  unfold sanitize_filename
  rw [replace_chain_eq_map]

theorem sanitize_no_invalid (name : Str) :
    ∀ c ∈ sanitize_filename name, c ∉ invalid_chars := by
  intro c hc
  rw [sanitize_filename_eq] at hc
  have hsub := pyStrip_sublist (name.map sanitizeChar) ['.', ' ']
  have hmem : c ∈ name.map sanitizeChar := hsub.mem hc
  rcases List.mem_map.mp hmem with ⟨a, _, ha⟩
  rw [← ha]
  exact sanitizeChar_not_invalid a

/-- C8. The filename sanitizer is a pure total function and idempotent:
`sanitize_filename (sanitize_filename x) = sanitize_filename x` for every
string `x`. -/
theorem sanitize_filename_idempotent (x : Str) :
    sanitize_filename (sanitize_filename x) = sanitize_filename x := by
  rw [sanitize_filename_eq (sanitize_filename x)]
  rw [map_sanitizeChar_of_no_invalid _ (sanitize_no_invalid x)]
  rw [sanitize_filename_eq x, pyStrip_idem]

/-! ## Vectors, matrices, transform extraction (`transform_utils.py`) -/

/-- A 3-component value (position / scale / color triple). -/
structure Vec3 where
  x : ℚ
  y : ℚ
  z : ℚ
deriving DecidableEq, Repr

/-- A 4x4 world matrix over exact rationals, row-major fields. -/
structure Mat4 where
  m00 : ℚ
  m01 : ℚ
  m02 : ℚ
  m03 : ℚ
  m10 : ℚ
  m11 : ℚ
  m12 : ℚ
  m13 : ℚ
  m20 : ℚ
  m21 : ℚ
  m22 : ℚ
  m23 : ℚ
  m30 : ℚ
  m31 : ℚ
  m32 : ℚ
  m33 : ℚ
deriving DecidableEq, Repr

/-- Matrix product `A @ B` (mathutils `@` operator). -/
def matMul (A B : Mat4) : Mat4 where
  m00 := A.m00 * B.m00 + A.m01 * B.m10 + A.m02 * B.m20 + A.m03 * B.m30
  m01 := A.m00 * B.m01 + A.m01 * B.m11 + A.m02 * B.m21 + A.m03 * B.m31
  m02 := A.m00 * B.m02 + A.m01 * B.m12 + A.m02 * B.m22 + A.m03 * B.m32
  m03 := A.m00 * B.m03 + A.m01 * B.m13 + A.m02 * B.m23 + A.m03 * B.m33
  m10 := A.m10 * B.m00 + A.m11 * B.m10 + A.m12 * B.m20 + A.m13 * B.m30
  m11 := A.m10 * B.m01 + A.m11 * B.m11 + A.m12 * B.m21 + A.m13 * B.m31
  m12 := A.m10 * B.m02 + A.m11 * B.m12 + A.m12 * B.m22 + A.m13 * B.m32
  m13 := A.m10 * B.m03 + A.m11 * B.m13 + A.m12 * B.m23 + A.m13 * B.m33
  m20 := A.m20 * B.m00 + A.m21 * B.m10 + A.m22 * B.m20 + A.m23 * B.m30
  m21 := A.m20 * B.m01 + A.m21 * B.m11 + A.m22 * B.m21 + A.m23 * B.m31
  m22 := A.m20 * B.m02 + A.m21 * B.m12 + A.m22 * B.m22 + A.m23 * B.m32
  m23 := A.m20 * B.m03 + A.m21 * B.m13 + A.m22 * B.m23 + A.m23 * B.m33
  m30 := A.m30 * B.m00 + A.m31 * B.m10 + A.m32 * B.m20 + A.m33 * B.m30
  m31 := A.m30 * B.m01 + A.m31 * B.m11 + A.m32 * B.m21 + A.m33 * B.m31
  m32 := A.m30 * B.m02 + A.m31 * B.m12 + A.m32 * B.m22 + A.m33 * B.m32
  m33 := A.m30 * B.m03 + A.m31 * B.m13 + A.m32 * B.m23 + A.m33 * B.m33

/-- Embedding of `bpy_extras.io_utils.axis_conversion(from_forward='Y', from_up='Z',
to_forward='-Z', to_up='Y').to_4x4()` from
`blender_plugin/exporter/transform_utils.py`: maps a Blender-space vector
`(x, y, z)` to `(x, z, -y)`. -/
def axis_conversion_matrix : Mat4 :=
  ⟨1, 0, 0, 0,
   0, 0, 1, 0,
   0, -1, 0, 0,
   0, 0, 0, 1⟩

/-- Embedding of `matrix_to_position` from `transform_utils.py`: the translation column of
the matrix (`matrix.translation`). -/
def matrix_to_position (M : Mat4) : Vec3 :=
  ⟨M.m03, M.m13, M.m23⟩

/-! ## Scene-graph input model (§6 of the spec: read-only host data) -/

/-- A host image (`bpy.types.Image`): a name and whether `save_render`
succeeds for it (I/O success is environment data in the embedding). -/
structure BImage where
  name : Str
  save_ok : Bool
deriving DecidableEq, Repr

/-- A host material (`bpy.types.Material`): a name, the set of images its
node tree references (node-graph traversal abstracted to its result), and
whether writing its MTL file succeeds. -/
structure BMaterial where
  name : Str
  export_ok : Bool
  images : List BImage
deriving DecidableEq, Repr

/-- Embedding of `obj.type` tags used by the scene builder. -/
inductive ObjType
  | MESH
  | LIGHT
  | OTHER
deriving DecidableEq, Repr

/-- Embedding of `light_data.type` tags. -/
inductive BlLightType
  | POINT
  | SUN
  | SPOT
  | AREA
deriving DecidableEq, Repr

/-- Embedding of `light_data.falloff_type` values distinguished by the light exporter. -/
inductive FalloffType
  | INVERSE_LINEAR
  | INVERSE_SQUARE
  | OTHER
deriving DecidableEq, Repr

/-- Host light datablock (`bpy.types.Light`). `Option` fields model
`hasattr` probing: `none` means the attribute is absent on this host
version. `spot_size`/`spot_blend` and shadow clip values are carried even
though the degree conversion of the spot angle is transcendental and not
re-verified here. -/
structure LightData where
  ltype : BlLightType
  color : Vec3
  energy : ℚ
  distance : Option ℚ
  falloff_type : Option FalloffType
  use_shadow : Option Bool
  shadow_buffer_bias : Option ℚ
  shadow_clip : Option (ℚ × ℚ)
deriving DecidableEq, Repr

/-- A host scene object (`bpy.types.Object`). `export_ok` models whether the
external `bpy.ops.wm.obj_export` call succeeds and leaves the file on disk
(environment data); `light_data` is `obj.data` for lights; `materials` is
`obj.data.materials` for meshes (entries may be `None`). -/
structure BObject where
  name : Str
  otype : ObjType
  matrix_world : Mat4
  hide_viewport : Bool
  export_ok : Bool
  materials : List (Option BMaterial)
  light_data : Option LightData
deriving DecidableEq, Repr

/-- Embedding of `get_world_matrix` from `transform_utils.py`: `obj.matrix_world.copy()`. -/
def get_world_matrix (obj : BObject) : Mat4 :=
  obj.matrix_world

/-- The matrix that `get_object_transform` in
`blender_plugin_5_0/exporter/transform_utils.py` decomposes: the raw world
matrix, with no axis conversion (`matrix_to_position`/`rotation`/`scale` are
applied to `get_world_matrix(obj)` directly). -/
def get_object_transform_matrix (obj : BObject) : Mat4 :=
  get_world_matrix obj

/-- The matrix that `_get_object_transform_yup` in
`blender_plugin/exporter/transform_utils.py` decomposes:
`M_conv @ matrix_world`. -/
def get_object_transform_yup_matrix (obj : BObject) : Mat4 :=
  matMul axis_conversion_matrix obj.matrix_world

/-! ## Light exporter (`blender_plugin/exporter/light_exporter.py`) -/

/-- Scene-format light instance types (`type_map` values). -/
inductive SceneLightType
  | pointLight
  | directionalLight
  | spotLight
deriving DecidableEq, Repr

/-- Embedding of `type_map` in `export_light_instance`: POINT/AREA map to `pointLight`
(area lights approximated), SUN to `directionalLight`, SPOT to `spotLight`. -/
def light_type_map : BlLightType → SceneLightType
  | .POINT => .pointLight
  | .SUN => .directionalLight
  | .SPOT => .spotLight
  | .AREA => .pointLight

/-- The attenuation record `{constant, linear, quadratic}`. -/
structure Attenuation where
  constant : ℚ
  linear : ℚ
  quadratic : ℚ
deriving DecidableEq, Repr

/-- The `light_props` dict built by `export_light_instance`. Fields that the
code only sets on some branches are `Option`s (`none` = key absent). The
`direction` and `cutoff`/`outerCutoff` entries require vector normalization
and radians-to-degrees conversion (transcendental) and are outside the
claims verified here, so they are not carried. -/
structure LightProps where
  color : Vec3
  intensity : ℚ
  enabled : Bool
  range : Option ℚ
  attenuation : Option Attenuation
  shadowEnabled : Option Bool
  shadowBias : Option ℚ
  shadowMapResolution : Option ℚ
  shadowOrthoSize : Option ℚ
deriving DecidableEq, Repr

/-- A scene-format light instance. `transform_matrix` is the matrix whose
decomposition supplies position/rotation/scale: `export_light_instance`
obtains the transform from `transform_utils.get_object_transform`, which in
this tree decomposes `M_conv @ matrix_world`. -/
structure LightInstance where
  id : Str
  ltype : SceneLightType
  transform_matrix : Mat4
  light : LightProps
deriving DecidableEq, Repr

/-- Embedding of `export_light_instance` from `light_exporter.py`: `None` unless the
object is a light with light data; otherwise builds the instance dict. -/
def export_light_instance (obj : BObject) : Option LightInstance :=
  if obj.otype ≠ ObjType.LIGHT then none
  else
    match obj.light_data with
    | none => none
    | some ld =>
      let intensity : ℚ :=
        if ld.ltype = .SUN then max (1/10) (ld.energy / 10)
        else max (1/10) ld.energy
      let isPointish : Bool :=
        ld.ltype = .POINT ∨ ld.ltype = .SPOT ∨ ld.ltype = .AREA
      let rangeOpt : Option ℚ :=
        if isPointish then
          some (match ld.distance with
                | some d => max (1/10) d
                | none => 25)
        else none
      let attenOpt : Option Attenuation :=
        if isPointish then
          some (match ld.falloff_type with
                | some .INVERSE_LINEAR => ⟨1, 1/10, 0⟩
                | some .INVERSE_SQUARE => ⟨1, 0, 1/10⟩
                | _ => ⟨1, 9/100, 4/125⟩)
        else none
      let shadowEnabledOpt : Option Bool := ld.use_shadow
      let shadowBiasOpt : Option ℚ :=
        match ld.use_shadow with
        | some true =>
            some (match ld.shadow_buffer_bias with
                  | some b => max 0 b
                  | none => 1/100)
        | _ => none
      let shadowResOpt : Option ℚ :=
        match ld.use_shadow with
        | some true => some 2048
        | _ => none
      let shadowOrthoOpt : Option ℚ :=
        match ld.use_shadow with
        | some true =>
            if ld.ltype = .SUN then
              some (match ld.shadow_clip with
                    | some (cs, ce) => max 1 (ce - cs)
                    | none => 100)
            else none
        | _ => none
      some
        { id := pyReplaceChar (pyReplaceChar obj.name ' ' '_') '.' '_'
          ltype := light_type_map ld.ltype
          transform_matrix := get_object_transform_yup_matrix obj
          light :=
            { color := ld.color
              intensity := intensity
              enabled := ¬ obj.hide_viewport
              range := rangeOpt
              attenuation := attenOpt
              shadowEnabled := shadowEnabledOpt
              shadowBias := shadowBiasOpt
              shadowMapResolution := shadowResOpt
              shadowOrthoSize := shadowOrthoOpt } }

/-- Embedding of `export_all_lights` from `light_exporter.py`. -/
def export_all_lights (objects : List BObject) : List LightInstance :=
  objects.filterMap (fun obj =>
    if obj.otype = ObjType.LIGHT then export_light_instance obj else none)

/-- C4. For every light object that exports and every energy value
(including zero and negative), the intensity is
`max(0.1, energy/10)` for sun lights, `max(0.1, energy)` otherwise, and is
always at least `0.1`. -/
theorem light_intensity_spec (obj : BObject) (ld : LightData)
    (hty : obj.otype = ObjType.LIGHT) (hld : obj.light_data = some ld) :
    ∃ li, export_light_instance obj = some li
      ∧ li.light.intensity =
          (if ld.ltype = .SUN then max (1/10) (ld.energy / 10)
           else max (1/10) ld.energy)
      ∧ (1/10 : ℚ) ≤ li.light.intensity := by
  unfold export_light_instance
  rw [hty, hld, if_neg (fun h => h rfl)]
  refine ⟨_, rfl, rfl, ?_⟩
  show (1/10 : ℚ) ≤
    (if ld.ltype = .SUN then max (1/10) (ld.energy / 10) else max (1/10) ld.energy)
  split <;> exact le_max_left _ _

/-- The 4x4 identity matrix, used for concrete witnesses. -/
def idMat4 : Mat4 :=
  ⟨1, 0, 0, 0,
   0, 1, 0, 0,
   0, 0, 1, 0,
   0, 0, 0, 1⟩

/-- Light data of a point light with energy 0 and no optional attributes. -/
def demoPointLightData : LightData :=
  ⟨.POINT, ⟨1, 1, 1⟩, 0, none, none, none, none, none⟩

/-- A visible point-light object named `Lamp`. -/
def demoPointLight : BObject :=
  ⟨"Lamp".toList, .LIGHT, idMat4, false, false, [], some demoPointLightData⟩

/-- Witness for C4: a point light with energy 0 exports, with intensity
floored to 0.1. -/
theorem light_intensity_spec_witness :
    (∃ li, export_light_instance demoPointLight = some li
      ∧ li.light.intensity =
          (if demoPointLightData.ltype = .SUN
           then max (1/10) (demoPointLightData.energy / 10)
           else max (1/10) demoPointLightData.energy)
      ∧ (1/10 : ℚ) ≤ li.light.intensity)
    ∧ (if demoPointLightData.ltype = .SUN
       then max (1/10) (demoPointLightData.energy / 10)
       else max (1/10) demoPointLightData.energy) = (1/10 : ℚ) :=
  ⟨light_intensity_spec demoPointLight demoPointLightData rfl rfl,
   by norm_num [demoPointLightData]⟩

/-- Modelled from the spec's words for claim C7 (refinement comparison
definition, NOT from the source): the light id as the claim describes it —
the generic `sanitize_filename`, then spaces and dots replaced by
underscores. -/
def light_id_per_spec (name : Str) : Str :=
  pyReplaceChar (pyReplaceChar (sanitize_filename name) ' ' '_') '.' '_'

/-- A light object whose name contains a `/`. -/
def demoSlashLight : BObject :=
  ⟨"a/b".toList, .LIGHT, idMat4, false, false, [], some demoPointLightData⟩

/-- C7 counterexample: for the light named `a/b`, the code's id keeps the
slash (`export_light_instance` only replaces spaces and dots), while the
claim's sanitize-then-replace id would be `a_b`. -/
theorem light_id_claim_counterexample :
    (export_light_instance demoSlashLight).map LightInstance.id
        = some "a/b".toList
    ∧ light_id_per_spec demoSlashLight.name = "a_b".toList
    ∧ (export_light_instance demoSlashLight).map LightInstance.id
        ≠ some (light_id_per_spec demoSlashLight.name) := by
  refine ⟨rfl, by decide, by decide⟩

/-- C7 amended. For every exported light instance, its id is the object's
raw name with every space and every dot replaced by an underscore; the
generic filename sanitizer is NOT applied. -/
theorem light_id_amended (obj : BObject) (ld : LightData)
    (hty : obj.otype = ObjType.LIGHT) (hld : obj.light_data = some ld) :
    ∃ li, export_light_instance obj = some li
      ∧ li.id = pyReplaceChar (pyReplaceChar obj.name ' ' '_') '.' '_' := by
  unfold export_light_instance
  rw [hty, hld, if_neg (fun h => h rfl)]
  exact ⟨_, rfl, rfl⟩

/-- Witness for the amended C7: a light named `A b.c` gets id `A_b_c`. -/
theorem light_id_amended_witness :
    (∃ li, export_light_instance
        ⟨"A b.c".toList, .LIGHT, idMat4, false, false, [], some demoPointLightData⟩
        = some li
      ∧ li.id = pyReplaceChar (pyReplaceChar "A b.c".toList ' ' '_') '.' '_')
    ∧ pyReplaceChar (pyReplaceChar "A b.c".toList ' ' '_') '.' '_' = "A_b_c".toList :=
  ⟨light_id_amended _ demoPointLightData rfl rfl, by decide⟩

/-! ## Material exporter (`blender_plugin_5_0/exporter/material_exporter.py`) -/

/-- Embedding of `roughness_to_shininess` from `material_exporter.py`:
`(1.0 - roughness) * 1000.0`. -/
def roughness_to_shininess (roughness : ℚ) : ℚ :=
  (1 - roughness) * 1000

/-- C5. Shininess is exactly `(1-r)*1000`, lies in `[0, 1000]` for
`r ∈ [0, 1]`, and is monotonically (strictly) decreasing in `r`. -/
theorem roughness_to_shininess_spec :
    (∀ r : ℚ, roughness_to_shininess r = (1 - r) * 1000)
    ∧ (∀ r : ℚ, 0 ≤ r → r ≤ 1 →
        0 ≤ roughness_to_shininess r ∧ roughness_to_shininess r ≤ 1000)
    ∧ (∀ r1 r2 : ℚ, r1 < r2 →
        roughness_to_shininess r2 < roughness_to_shininess r1) := by
  refine ⟨fun r => rfl, fun r h0 h1 => ⟨?_, ?_⟩, fun r1 r2 h => ?_⟩ <;>
    unfold roughness_to_shininess <;> nlinarith

/-- Witness for C5 at `r = 1/2` and the pair `1/4 < 3/4`. -/
theorem roughness_to_shininess_spec_witness :
    (0 ≤ roughness_to_shininess (1/2) ∧ roughness_to_shininess (1/2) ≤ 1000)
    ∧ roughness_to_shininess (3/4) < roughness_to_shininess (1/4) :=
  ⟨roughness_to_shininess_spec.2.1 (1/2) (by norm_num) (by norm_num),
   roughness_to_shininess_spec.2.2 (1/4) (3/4) (by norm_num)⟩

/-- A mesh object whose world matrix is a pure translation by `(0, 1, 0)`. -/
def demoMeshObjY : BObject :=
  ⟨"Cube".toList, .MESH,
   ⟨1, 0, 0, 0,
    0, 1, 0, 1,
    0, 0, 1, 0,
    0, 0, 0, 1⟩,
   false, true, [], none⟩

/-- C2, code evaluated at the failing input: in the `blender_plugin_5_0`
tree, `get_object_transform` decomposes the raw world matrix — the position
of an object translated to `(0,1,0)` is exported as `(0,1,0)` — whereas the
axis-converted decomposition (`M_conv @ matrix_world`, the convention of the
geometry exporter and of the `blender_plugin` tree) yields `(0,0,-1)`. The
two disagree, so the fixed axis conversion is NOT applied to every exported
transform. -/
theorem axis_conversion_missing_in_5_0 :
    matrix_to_position (get_object_transform_matrix demoMeshObjY) = ⟨0, 1, 0⟩
    ∧ matrix_to_position (matMul axis_conversion_matrix (get_world_matrix demoMeshObjY))
        = ⟨0, 0, -1⟩
    ∧ matrix_to_position (get_object_transform_matrix demoMeshObjY)
        ≠ matrix_to_position (get_object_transform_yup_matrix demoMeshObjY) := by
  refine ⟨rfl, ?_, ?_⟩ <;>
    simp [matrix_to_position, matMul, axis_conversion_matrix, get_world_matrix,
      get_object_transform_matrix, get_object_transform_yup_matrix, demoMeshObjY,
      Vec3.mk.injEq]

/-! ## Path helpers (`os.path`, modelled for forward-slash paths) -/

/-- Python `s.split(sep)` for a single-character separator (keeps empty
pieces, always returns at least one piece). -/
def pySplit : Str → Char → List Str
  | [], _ => [[]]
  | c :: t, sep =>
      if c = sep then [] :: pySplit t sep
      else
        match pySplit t sep with
        | h :: r => (c :: h) :: r
        | [] => [[c]]

/-- Python `s.rstrip(c)` for a single character. -/
def pyRstripChar (s : Str) (c : Char) : Str :=
  (s.reverse.dropWhile (fun d => d == c)).reverse

/-- Embedding of `os.path.basename` for forward-slash paths: everything after the last
separator (`p[p.rfind(sep)+1:]`). -/
def os_basename (p : Str) : Str :=
  (p.reverse.takeWhile (fun c => c != '/')).reverse

/-- Embedding of `os.path.join(a, b)` for forward-slash paths (posixpath: an absolute
second argument replaces the first; otherwise concatenate with exactly one
separator). -/
def pyJoin (a b : Str) : Str :=
  if b.head? = some '/' then b
  else if a = [] then b
  else if a.getLast? = some '/' then a ++ b
  else a ++ '/' :: b

/-- Embedding of `os.path.splitdrive`, modelled for DOS drive-letter prefixes (`X:`);
paths without a second-character colon have an empty drive, as on posix. -/
def splitdrive (p : Str) : Str × Str :=
  match p with
  | c1 :: ':' :: rest => ([c1, ':'], rest)
  | _ => ([], p)

/-- Length of the common prefix of two component lists
(`os.path.commonprefix` on split paths). -/
def commonPrefixLen : List Str → List Str → Nat
  | a :: ta, b :: tb => if a = b then 1 + commonPrefixLen ta tb else 0
  | _, _ => 0

/-- Embedding of `os.path.relpath(path, start)`, modelled for normalized absolute
forward-slash paths with an optional DOS drive prefix: differing drives
raise `ValueError` (the `none` case); otherwise drop the common leading
components, prepend one `..` per remaining `start` component, and join. -/
def os_relpath (path start : Str) : Option Str :=
  let pd := splitdrive path
  let sd := splitdrive start
  if pd.1 ≠ sd.1 then none
  else
    let pl := (pySplit pd.2 '/').filter (fun x => x ≠ [])
    let sl := (pySplit sd.2 '/').filter (fun x => x ≠ [])
    let i := commonPrefixLen sl pl
    let rel := List.replicate (sl.length - i) "..".toList ++ pl.drop i
    if rel = [] then some ".".toList
    else some (List.intercalate ['/'] rel)

/-- Embedding of `build_asset_uri` from `blender_plugin_5_0/exporter/scene_builder.py`. -/
def build_asset_uri (filepath base_url export_dir : Str) : Str :=
  if base_url ≠ [] then
    match os_relpath filepath export_dir with
    | some rel =>
        pyRstripChar base_url '/' ++ '/' :: pyReplaceChar rel '\\' '/'
    | none =>
        pyRstripChar base_url '/' ++ '/' :: os_basename filepath
  else
    match os_relpath filepath export_dir with
    | some rel => pyReplaceChar rel '\\' '/'
    | none => os_basename filepath

/-- C6. URI construction: with no base URL the URI is the separator-
normalized relative path; with a base URL it is the rstripped base, a
slash, and that relative path; if the relative-path computation fails the
file's base name stands in for the relative path; and the two concrete
examples from the spec hold. -/
theorem build_asset_uri_spec :
    (∀ f e r, os_relpath f e = some r →
        build_asset_uri f [] e = pyReplaceChar r '\\' '/')
    ∧ (∀ f b e r, b ≠ [] → os_relpath f e = some r →
        build_asset_uri f b e
          = pyRstripChar b '/' ++ '/' :: pyReplaceChar r '\\' '/')
    ∧ (∀ f b e, os_relpath f e = none →
        build_asset_uri f b e
          = (if b = [] then os_basename f
             else pyRstripChar b '/' ++ '/' :: os_basename f))
    ∧ build_asset_uri "/out/meshes/cube.obj".toList [] "/out".toList
        = "meshes/cube.obj".toList
    ∧ build_asset_uri "/out/meshes/cube.obj".toList "https://x.io/a/".toList
        "/out".toList
        = "https://x.io/a/meshes/cube.obj".toList := by
  refine ⟨?_, ?_, ?_, by decide, by decide⟩
  · intro f e r h
    unfold build_asset_uri
    rw [if_neg (fun hc => hc rfl), h]
  · intro f b e r hb h
    unfold build_asset_uri
    rw [if_pos hb, h]
  · intro f b e h
    unfold build_asset_uri
    by_cases hb : b = []
    · rw [if_pos hb, if_neg (fun hc => hc hb), h]
    · rw [if_neg hb, if_pos hb, h]

/-- Witness for C6: the fallback clause at a concrete cross-drive pair, and
the no-base-URL clause at the concrete spec example. -/
theorem build_asset_uri_spec_witness :
    build_asset_uri "D:/data/cube.obj".toList "https://x.io".toList "C:/out".toList
      = (if ("https://x.io".toList : Str) = []
         then os_basename "D:/data/cube.obj".toList
         else pyRstripChar "https://x.io".toList '/'
                ++ '/' :: os_basename "D:/data/cube.obj".toList)
    ∧ build_asset_uri "/out/meshes/cube.obj".toList [] "/out".toList
      = pyReplaceChar "meshes/cube.obj".toList '\\' '/' :=
  ⟨build_asset_uri_spec.2.2.1 _ _ _ (by decide),
   build_asset_uri_spec.1 _ _ _ (by decide)⟩

/-! ## Texture exporter (`blender_plugin_5_0/exporter/texture_exporter.py`) -/

/-- Python `s.upper()`. -/
def pyUpper (s : Str) : Str :=
  s.map Char.toUpper

/-- The `SUPPORTED_FORMATS` whitelist. -/
def SUPPORTED_FORMATS : List Str :=
  ["PNG".toList, "JPG".toList, "JPEG".toList, "TGA".toList]

/-- The `format_map` lookup (total on the whitelist; callers only apply it
after the whitelist check has forced membership). -/
def format_to_ext (f : Str) : Str :=
  if f = "PNG".toList then ".png".toList
  else if f = "JPG".toList then ".jpg".toList
  else if f = "JPEG".toList then ".jpg".toList
  else ".tga".toList

/-- Embedding of `os.path.splitext` on the basename part: leading dots of the filename
never start an extension (CPython `genericpath._splitext`). -/
def splitextBase (b : Str) : Str × Str :=
  let lead := b.takeWhile (fun c => c == '.')
  let rest := b.dropWhile (fun c => c == '.')
  if rest.contains '.' then
    let revExt := rest.reverse.takeWhile (fun c => c != '.')
    let revBase := rest.reverse.dropWhile (fun c => c != '.')
    match revBase with
    | '.' :: rb => (lead ++ rb.reverse, '.' :: revExt.reverse)
    | _ => (b, [])
  else (b, [])

/-- Embedding of `os.path.splitext` for forward-slash paths: split off the extension of
the final path component. -/
def os_splitext (p : Str) : Str × Str :=
  let revAfter := p.reverse.takeWhile (fun c => c != '/')
  let revBefore := p.reverse.dropWhile (fun c => c != '/')
  let se := splitextBase revAfter.reverse
  (revBefore.reverse ++ se.1, se.2)

/-- Embedding of `export_texture` from `texture_exporter.py`: validate the format against
the whitelist (fall back to PNG), derive the filename from the image name
(default `texture` for empty or `Render Result` names) with the image's own
extension stripped and the rest sanitized, and save. `save_ok` models
success of the `unpack`/`save_render` I/O; failure returns `None`. -/
def export_texture (img : BImage) (output_path : Str) (target_format : Str) :
    Option Str :=
  let format_upper0 := pyUpper target_format
  let format_upper :=
    if SUPPORTED_FORMATS.contains format_upper0 then format_upper0
    else "PNG".toList
  let ext := format_to_ext format_upper
  let image_name :=
    if img.name = [] ∨ img.name = "Render Result".toList then "texture".toList
    else img.name
  let base_name := (os_splitext image_name).1
  let sanitized_name := sanitize_filename base_name
  let filename := sanitized_name ++ ext
  let filepath := pyJoin output_path filename
  if img.save_ok then some filepath else none

/-- Embedding of `collect_textures_from_materials` from `texture_exporter.py`: the images
referenced by the materials' node trees (traversal abstracted to each
material's image list), `set()`-deduplicated; Python's unspecified set
iteration order is determinized to first-occurrence order. -/
def collect_textures_from_materials (materials : List BMaterial) : List BImage :=
  (materials.foldl (fun acc m => acc ++ m.images) []).foldl
    (fun acc img => if acc.contains img then acc else acc ++ [img]) []

/-- Python dict assignment `d[k] = v`: update in place if the key exists
(keeping its position), else append. -/
def pyDictInsert (d : List (Str × Str)) (k v : Str) : List (Str × Str) :=
  if d.any (fun q => q.1 = k) then
    d.map (fun q => if q.1 = k then (k, v) else q)
  else d ++ [(k, v)]

/-- Python `d.get(k)`. -/
def pyDictGet (d : List (Str × Str)) (k : Str) : Option Str :=
  (d.find? (fun q => q.1 = k)).map (fun q => q.2)

/-- Embedding of `export_all_textures` from `texture_exporter.py`: export the
deduplicated images, keyed by sanitized image name; failed saves are
skipped. -/
def export_all_textures (materials : List BMaterial) (output_path : Str)
    (target_format : Str) : List (Str × Str) :=
  (collect_textures_from_materials materials).foldl
    (fun d img =>
      match export_texture img output_path target_format with
      | some fp => pyDictInsert d (sanitize_filename img.name) fp
      | none => d)
    []

/-! ## MTL texture-reference lines
(`blender_plugin_5_0/exporter/material_exporter.py`, `export_material_to_mtl`) -/

/-- The texture ids a material resolves to, as returned by
`get_diffuse_texture`, `get_metallic_texture`, `get_normal_texture`,
`get_ao_texture`, `get_height_texture`, `get_roughness_texture` (each a
sanitized image name or `None`; the node-graph pattern matching that
produces them is abstracted to its result). -/
structure MaterialTexRefs where
  diffuse : Option Str
  metallic : Option Str
  normal : Option Str
  ao : Option Str
  height : Option Str
  roughness : Option Str
deriving DecidableEq, Repr

/-- One texture-map line of `export_material_to_mtl`: look the id up in
`textures_dict`; if found (and truthy), write `key basename(path)`;
otherwise write nothing. -/
def mtl_texture_line (textures_dict : List (Str × Str)) (key : Str)
    (tex : Option Str) : List (Str × Str) :=
  match tex with
  | some t =>
      match pyDictGet textures_dict t with
      | some p => if p ≠ [] then [(key, os_basename p)] else []
      | none => []
  | none => []

/-- The texture-map lines written by `export_material_to_mtl`: the diffuse
`map_Kd` line, then — when `export_pbr_maps` — the metallic, normal, AO,
height and roughness lines, in source order. -/
def export_material_map_lines (refs : MaterialTexRefs)
    (textures_dict : List (Str × Str)) (export_pbr_maps : Bool) :
    List (Str × Str) :=
  mtl_texture_line textures_dict "map_Kd".toList refs.diffuse
    ++ (if export_pbr_maps then
          mtl_texture_line textures_dict "map_Pm".toList refs.metallic
          ++ mtl_texture_line textures_dict "norm".toList refs.normal
          ++ mtl_texture_line textures_dict "map_Ka".toList refs.ao
          ++ mtl_texture_line textures_dict "map_disp".toList refs.height
          ++ mtl_texture_line textures_dict "map_Pr".toList refs.roughness
        else [])

theorem takeWhile_of_all (p : Char → Bool) (l : Str) (h : ∀ c ∈ l, p c) :
    l.takeWhile p = l := by
  induction l with
  | nil => rfl
  | cons c t ih =>
      rw [List.takeWhile_cons_of_pos (h c (List.mem_cons_self c t))]
      rw [ih (fun x hx => h x (List.mem_cons_of_mem c hx))]

theorem takeWhile_append_stop (p : Char → Bool) (l1 : Str) (c : Char) (l2 : Str)
    (h1 : ∀ x ∈ l1, p x) (hc : ¬ p c) :
    (l1 ++ c :: l2).takeWhile p = l1 := by
  induction l1 with
  | nil => rw [List.nil_append, List.takeWhile_cons_of_neg hc]
  | cons a t ih =>
      rw [List.cons_append,
        List.takeWhile_cons_of_pos (h1 a (List.mem_cons_self a t))]
      rw [ih (fun x hx => h1 x (List.mem_cons_of_mem a hx))]

theorem os_basename_no_slash (f : Str) (h : '/' ∉ f) : os_basename f = f := by
  unfold os_basename
  rw [takeWhile_of_all _ _ ?_, List.reverse_reverse]
  intro c hc
  have : c ∈ f := List.mem_reverse.mp hc
  simp only [bne_iff_ne, ne_eq]
  exact fun hceq => h (hceq ▸ this)

theorem os_basename_append_slash (x f : Str) (h : '/' ∉ f) :
    os_basename (x ++ '/' :: f) = f := by
  unfold os_basename
  rw [List.reverse_append, List.reverse_cons, List.append_assoc,
    List.singleton_append]
  rw [takeWhile_append_stop _ f.reverse '/' (List.reverse x) ?_ (by simp)]
  · exact List.reverse_reverse f
  · intro c hc
    have : c ∈ f := List.mem_reverse.mp hc
    simp only [bne_iff_ne, ne_eq]
    exact fun hceq => h (hceq ▸ this)

theorem os_basename_pyJoin (a f : Str) (hslash : '/' ∉ f) (hne : f ≠ []) :
    os_basename (pyJoin a f) = f := by
  unfold pyJoin
  by_cases h1 : f.head? = some '/'
  · exfalso
    rcases f with _ | ⟨c, t⟩
    · exact hne rfl
    · simp only [List.head?_cons, Option.some.injEq] at h1
      exact hslash (h1 ▸ List.mem_cons_self c t)
  · rw [if_neg h1]
    by_cases h2 : a = []
    · rw [if_pos h2]
      exact os_basename_no_slash f hslash
    · rw [if_neg h2]
      by_cases h3 : a.getLast? = some '/'
      · rw [if_pos h3]
        have hlast : a.getLast (by exact h2) = '/' := by
          have := List.getLast?_eq_getLast a h2
          rw [this] at h3
          exact Option.some.inj h3
        have ha : a = a.dropLast ++ ['/'] := by
          conv_lhs => rw [← List.dropLast_append_getLast h2]
          rw [hlast]
        rw [ha, List.append_assoc]
        exact os_basename_append_slash a.dropLast f hslash
      · rw [if_neg h3]
        exact os_basename_append_slash a f hslash

theorem sanitize_no_slash (b : Str) :
    '/' ∉ sanitize_filename b ∧ '\\' ∉ sanitize_filename b := by
  constructor <;> intro h <;> exact sanitize_no_invalid b _ h (by decide)

/-- The three extensions `format_map` can produce. -/
def mtl_texture_exts : List Str :=
  [".png".toList, ".jpg".toList, ".tga".toList]

theorem format_to_ext_mem (f : Str) : format_to_ext f ∈ mtl_texture_exts := by
  unfold format_to_ext mtl_texture_exts
  split
  · simp
  · split
    · simp
    · split <;> simp

theorem export_texture_shape (img : BImage) (out fmt fp : Str)
    (h : export_texture img out fmt = some fp) :
    ∃ b ext, ext ∈ mtl_texture_exts
      ∧ fp = pyJoin out (sanitize_filename b ++ ext) := by
  simp only [export_texture] at h
  by_cases hs : img.save_ok = true
  · rw [if_pos hs] at h
    exact ⟨_, _, format_to_ext_mem _, (Option.some.inj h).symm⟩
  · rw [if_neg hs] at h
    cases h

theorem mem_pyDictInsert (d : List (Str × Str)) (k v : Str) (q : Str × Str)
    (h : q ∈ pyDictInsert d k v) : q ∈ d ∨ q = (k, v) := by
  unfold pyDictInsert at h
  split at h
  · rcases List.mem_map.mp h with ⟨q0, hq0, hq⟩
    by_cases he : q0.1 = k
    · right
      rw [if_pos he] at hq
      exact hq.symm
    · left
      rw [if_neg he] at hq
      exact hq ▸ hq0
  · rcases List.mem_append.mp h with h1 | h1
    · exact Or.inl h1
    · right
      simpa using h1

theorem pyDictGet_mem (d : List (Str × Str)) (k p : Str)
    (h : pyDictGet d k = some p) : (k, p) ∈ d := by
  induction d with
  | nil => cases h
  | cons q t ih =>
      by_cases he : q.1 = k
      · have hfind : List.find? (fun r => decide (r.1 = k)) (q :: t) = some q :=
          List.find?_cons_of_pos _ (by simpa using he)
        unfold pyDictGet at h
        rw [hfind, Option.map_some'] at h
        have h2 : q.2 = p := Option.some.inj h
        have hq : q = (k, p) := by
          cases q
          simp_all
        exact hq ▸ List.mem_cons_self q t
      · have hfind : List.find? (fun r => decide (r.1 = k)) (q :: t)
            = List.find? (fun r => decide (r.1 = k)) t :=
          List.find?_cons_of_neg _ (by simpa using he)
        unfold pyDictGet at h
        rw [hfind] at h
        exact List.mem_cons_of_mem q (ih h)

theorem textures_fold_values (out fmt : Str) (imgs : List BImage)
    (d0 : List (Str × Str))
    (h0 : ∀ q ∈ d0, ∃ b ext, ext ∈ mtl_texture_exts
        ∧ q.2 = pyJoin out (sanitize_filename b ++ ext)) :
    ∀ q ∈ imgs.foldl
        (fun d img =>
          match export_texture img out fmt with
          | some fp => pyDictInsert d (sanitize_filename img.name) fp
          | none => d) d0,
      ∃ b ext, ext ∈ mtl_texture_exts
        ∧ q.2 = pyJoin out (sanitize_filename b ++ ext) := by
  induction imgs generalizing d0 with
  | nil => simpa using h0
  | cons img t ih =>
      intro q hq
      rw [List.foldl_cons] at hq
      rcases hexp : export_texture img out fmt with _ | fp
      · simp only [hexp] at hq
        exact ih d0 h0 q hq
      · simp only [hexp] at hq
        refine ih _ ?_ q hq
        intro q' hq'
        rcases mem_pyDictInsert _ _ _ _ hq' with hin | heq
        · exact h0 q' hin
        · rcases export_texture_shape img out fmt fp hexp with ⟨b, ext, hm, hfp⟩
          exact ⟨b, ext, hm, by rw [heq]; exact hfp⟩

theorem export_all_textures_values (materials : List BMaterial) (out fmt : Str) :
    ∀ q ∈ export_all_textures materials out fmt,
      ∃ b ext, ext ∈ mtl_texture_exts
        ∧ q.2 = pyJoin out (sanitize_filename b ++ ext) := by
  unfold export_all_textures
  exact textures_fold_values out fmt _ [] (by simp)

theorem mtl_texture_line_mem (d : List (Str × Str)) (key : Str)
    (tex : Option Str) (line : Str × Str) (h : line ∈ mtl_texture_line d key tex) :
    ∃ t p, pyDictGet d t = some p ∧ p ≠ [] ∧ line = (key, os_basename p) := by
  rcases tex with _ | t
  · simp only [mtl_texture_line] at h
    cases h
  · simp only [mtl_texture_line] at h
    rcases hg : pyDictGet d t with _ | p
    · simp only [hg] at h
      cases h
    · simp only [hg] at h
      by_cases hp : p ≠ []
      · rw [if_pos hp] at h
        exact ⟨t, p, hg, hp, List.mem_singleton.mp h⟩
      · rw [if_neg hp] at h
        cases h

theorem filename_props (b ext : Str) (hext : ext ∈ mtl_texture_exts) :
    sanitize_filename b ++ ext ≠ []
    ∧ '/' ∉ sanitize_filename b ++ ext
    ∧ '\\' ∉ sanitize_filename b ++ ext
    ∧ sanitize_filename b ++ ext ≠ "..".toList := by
  have hexts : ext.length = 4 ∧ '/' ∉ ext ∧ '\\' ∉ ext := by
    simp only [mtl_texture_exts, List.mem_cons, List.not_mem_nil, or_false] at hext
    rcases hext with rfl | rfl | rfl <;> exact ⟨by decide, by decide, by decide⟩
  refine ⟨?_, ?_, ?_, ?_⟩
  · intro h
    have hlen := congrArg List.length h
    rw [List.length_append, hexts.1] at hlen
    simp at hlen
  · intro h
    rcases List.mem_append.mp h with h1 | h1
    · exact (sanitize_no_slash b).1 h1
    · exact hexts.2.1 h1
  · intro h
    rcases List.mem_append.mp h with h1 | h1
    · exact (sanitize_no_slash b).2 h1
    · exact hexts.2.2 h1
  · intro h
    have hlen := congrArg List.length h
    rw [List.length_append, hexts.1] at hlen
    have h2 : ("..".toList : Str).length = 2 := by decide
    omega

/-- C3. Every texture-map line written into an MTL file from the texture
map produced by the texture exporter references the bare base filename of
the texture path — no path separator, no `..` segment — and such a line
exists only when the texture id resolves (truthily) in the texture map. -/
theorem mtl_texture_refs_safe (materials : List BMaterial) (out fmt : Str)
    (refs : MaterialTexRefs) (pbr : Bool) (line : Str × Str)
    (hline : line ∈ export_material_map_lines refs
        (export_all_textures materials out fmt) pbr) :
    ('/' ∉ line.2 ∧ '\\' ∉ line.2 ∧ line.2 ≠ "..".toList)
    ∧ ∃ t p, pyDictGet (export_all_textures materials out fmt) t = some p
        ∧ p ≠ [] ∧ line.2 = os_basename p := by
  have hprov : ∃ key t p,
      pyDictGet (export_all_textures materials out fmt) t = some p
      ∧ p ≠ [] ∧ line = (key, os_basename p) := by
    unfold export_material_map_lines at hline
    rcases List.mem_append.mp hline with h1 | h1
    · rcases mtl_texture_line_mem _ _ _ _ h1 with ⟨t, p, hg, hp, heq⟩
      exact ⟨_, t, p, hg, hp, heq⟩
    · by_cases hpbr : pbr = true
      · rw [if_pos hpbr] at h1
        simp only [List.mem_append] at h1
        rcases h1 with (((h2 | h2) | h2) | h2) | h2 <;>
          · rcases mtl_texture_line_mem _ _ _ _ h2 with ⟨t, p, hg, hp, heq⟩
            exact ⟨_, t, p, hg, hp, heq⟩
      · rw [if_neg hpbr] at h1
        cases h1
  rcases hprov with ⟨key, t, p, hg, hp, heq⟩
  have hmem := pyDictGet_mem _ _ _ hg
  rcases export_all_textures_values materials out fmt _ hmem with ⟨b, ext, hm, hshape⟩
  have hshape2 : p = pyJoin out (sanitize_filename b ++ ext) := hshape
  rcases filename_props b ext hm with ⟨hne, hs, hbs, hdd⟩
  have hbase : os_basename p = sanitize_filename b ++ ext := by
    rw [hshape2]
    exact os_basename_pyJoin out _ hs hne
  have hl2 : line.2 = os_basename p := by rw [heq]
  refine ⟨⟨?_, ?_, ?_⟩, t, p, hg, hp, hl2⟩
  · rw [hl2, hbase]
    exact hs
  · rw [hl2, hbase]
    exact hbs
  · rw [hl2, hbase]
    exact hdd

/-- A material referencing a single saveable image `wood.png`. -/
def demoWoodImage : BImage := ⟨"wood.png".toList, true⟩

/-- The material wrapping `demoWoodImage`. -/
def demoWoodMaterial : BMaterial := ⟨"M".toList, true, [demoWoodImage]⟩

/-- Texture references resolving only the diffuse channel to `wood.png`. -/
def demoWoodRefs : MaterialTexRefs :=
  ⟨some "wood.png".toList, none, none, none, none, none⟩

/-- Witness for C3: the `map_Kd wood.png` line emitted for `demoWoodMaterial`
is safe and traceable to the texture map entry. -/
theorem mtl_texture_refs_safe_witness :
    ('/' ∉ "wood.png".toList ∧ '\\' ∉ "wood.png".toList
      ∧ "wood.png".toList ≠ "..".toList)
    ∧ ∃ t p, pyDictGet
        (export_all_textures [demoWoodMaterial] "/out/meshes".toList "PNG".toList)
        t = some p
      ∧ p ≠ [] ∧ "wood.png".toList = os_basename p :=
  mtl_texture_refs_safe [demoWoodMaterial] "/out/meshes".toList "PNG".toList
    demoWoodRefs true ("map_Kd".toList, "wood.png".toList) (by decide)

/-! ## Material export map (`export_all_materials`) and scene builder
(`blender_plugin_5_0/exporter/scene_builder.py`). The builder's locals
(`mesh_objects`, `all_materials`, `textures_dict`, `materials_dict`,
`meshes_dict`, `assets`, `instances`) are factored into named definitions
mirroring the successive assignments in `build_scene_json`. -/

/-- Python `s.lower()`. -/
def pyLower (s : Str) : Str :=
  s.map Char.toLower

/-- The filepath side of `export_material_to_mtl`: the MTL path on success,
`None` on an I/O failure (the try/except swallows it); the texture-line
content side is `export_material_map_lines` above. -/
def export_material_to_mtl_path (material : BMaterial) (output_path : Str) :
    Option Str :=
  if material.export_ok then
    some (pyJoin output_path (sanitize_filename material.name ++ ".mtl".toList))
  else none

/-- Embedding of `export_all_materials` from `material_exporter.py`: failures are simply
absent from the returned map. -/
def export_all_materials (materials : List BMaterial) (output_path : Str) :
    List (Str × Str) :=
  materials.foldl
    (fun d material =>
      match export_material_to_mtl_path material output_path with
      | some fp => pyDictInsert d (sanitize_filename material.name) fp
      | none => d)
    []

/-- Embedding of `export_all_meshes` from `blender_plugin_5_0/exporter/mesh_exporter.py`:
per mesh object, invoke the external OBJ exporter on
`output_path/<sanitized>.obj`; on success (`export_ok`, modelling both the
operator call and the file-existence check) record
`sanitized -> filepath`. The second component records each successful
write as `(filepath, object name)` in order — the file on disk at a path
holds the data of the last write to it. -/
def export_all_meshes (objects : List BObject) (output_path : Str) :
    List (Str × Str) × List (Str × Str) :=
  objects.foldl
    (fun acc obj =>
      if obj.otype = ObjType.MESH then
        let sanitized_name := sanitize_filename obj.name
        let filepath := pyJoin output_path (sanitized_name ++ ".obj".toList)
        if obj.export_ok then
          (pyDictInsert acc.1 sanitized_name filepath,
           acc.2 ++ [(filepath, obj.name)])
        else acc
      else acc)
    ([], [])

/-- The settings dict read by `build_scene_json` (fields hold the values
the `.get` calls produce; the unused `export_scripts` key is omitted). -/
structure ExportSettings where
  export_directory : Str
  scene_name : Str
  scene_author : Str
  scene_description : Str
  scene_id : Str
  scene_rating : Str
  scene_version : Str
  schema_version : Str
  thumbnail_url : Str
  base_url : Str
  export_meshes : Bool
  export_materials : Bool
  export_textures : Bool
deriving DecidableEq, Repr

/-- Asset `type` values. -/
inductive AssetType
  | model
  | material
  | texture
deriving DecidableEq, Repr

/-- An entry of `assets[]`. -/
structure Asset where
  id : Str
  atype : AssetType
  uri : Str
  mediaType : Str
deriving DecidableEq, Repr

/-- An entry of `instances[]`: a model instance (with its `asset` reference
and the matrix its transform is decomposed from) or a light instance. -/
inductive SceneInstance
  | model (id : Str) (asset : Str) (transform_matrix : Mat4)
  | light (li : LightInstance)
deriving DecidableEq, Repr

/-- Media type from extension for texture assets (`media_type_map`, default
`image/png`). -/
def texture_media_type (filepath : Str) : Str :=
  let ext := pyLower (os_splitext filepath).2
  if ext = ".png".toList then "image/png".toList
  else if ext = ".jpg".toList then "image/jpeg".toList
  else if ext = ".jpeg".toList then "image/jpeg".toList
  else if ext = ".tga".toList then "image/tga".toList
  else "image/png".toList

/-- Embedding of `mesh_objects` in `build_scene_json`. -/
def scene_mesh_objects (objects : List BObject) : List BObject :=
  objects.filter (fun obj => obj.otype = ObjType.MESH)

/-- Embedding of `light_objects` in `build_scene_json`. -/
def scene_light_objects (objects : List BObject) : List BObject :=
  objects.filter (fun obj => obj.otype = ObjType.LIGHT)

/-- Embedding of `all_materials` in `build_scene_json`: the non-`None` materials of every
mesh object, `set()`-deduplicated (first-occurrence order determinizes
Python's unspecified set iteration order). -/
def scene_all_materials (objects : List BObject) : List BMaterial :=
  ((scene_mesh_objects objects).foldl
      (fun acc obj => acc ++ obj.materials.filterMap id) []).foldl
    (fun acc m => if acc.contains m then acc else acc ++ [m]) []

/-- Embedding of `meshes_dir` / `textures_dir` in `build_scene_json` (both
`export_dir/meshes`). -/
def scene_meshes_dir (settings : ExportSettings) : Str :=
  pyJoin settings.export_directory "meshes".toList

/-- Embedding of `textures_dict` in `build_scene_json`. -/
def scene_textures_dict (objects : List BObject) (settings : ExportSettings) :
    List (Str × Str) :=
  if settings.export_textures ∧ scene_all_materials objects ≠ [] then
    export_all_textures (scene_all_materials objects) (scene_meshes_dir settings)
      "PNG".toList
  else []

/-- Embedding of `materials_dict` in `build_scene_json`. -/
def scene_materials_dict (objects : List BObject) (settings : ExportSettings) :
    List (Str × Str) :=
  if settings.export_materials ∧ scene_all_materials objects ≠ [] then
    export_all_materials (scene_all_materials objects) (scene_meshes_dir settings)
  else []

/-- Embedding of `meshes_dict` in `build_scene_json`. -/
def scene_meshes_dict (objects : List BObject) (settings : ExportSettings) :
    List (Str × Str) :=
  (if settings.export_meshes ∧ scene_mesh_objects objects ≠ [] then
    export_all_meshes (scene_mesh_objects objects) (scene_meshes_dir settings)
  else ([], [])).1

/-- The write log of the mesh-export pass (second component of
`export_all_meshes`). -/
def scene_mesh_writes (objects : List BObject) (settings : ExportSettings) :
    List (Str × Str) :=
  (if settings.export_meshes ∧ scene_mesh_objects objects ≠ [] then
    export_all_meshes (scene_mesh_objects objects) (scene_meshes_dir settings)
  else ([], [])).2

/-- Embedding of `assets` in `build_scene_json`: model entries from `meshes_dict`, then
material entries, then texture entries. -/
def scene_assets (objects : List BObject) (settings : ExportSettings) :
    List Asset :=
  (scene_meshes_dict objects settings).map
      (fun kv => Asset.mk kv.1 AssetType.model
        (build_asset_uri kv.2 settings.base_url settings.export_directory)
        "model/obj".toList)
    ++ (scene_materials_dict objects settings).map
      (fun kv => Asset.mk kv.1 AssetType.material
        (build_asset_uri kv.2 settings.base_url settings.export_directory)
        "model/mtl".toList)
    ++ (scene_textures_dict objects settings).map
      (fun kv => Asset.mk kv.1 AssetType.texture
        (build_asset_uri kv.2 settings.base_url settings.export_directory)
        (texture_media_type kv.2))

/-- The model instances of `build_scene_json`: one per mesh object whose
sanitized name is a key of `meshes_dict`, with `id = asset = sanitized
name` and the object's own transform. -/
def scene_model_instances (objects : List BObject) (settings : ExportSettings) :
    List SceneInstance :=
  (scene_mesh_objects objects).filterMap
    (fun obj =>
      let s := sanitize_filename obj.name
      if (pyDictGet (scene_meshes_dict objects settings) s).isSome then
        some (SceneInstance.model s s (get_object_transform_matrix obj))
      else none)

/-- Embedding of `instances` in `build_scene_json`: model instances then light
instances. -/
def scene_instances (objects : List BObject) (settings : ExportSettings) :
    List SceneInstance :=
  scene_model_instances objects settings
    ++ (export_all_lights (scene_light_objects objects)).map SceneInstance.light

/-- The scene JSON document. `Option` fields model keys present only
conditionally. -/
structure SceneJson where
  name : Str
  version : Str
  schemaVersion : Str
  assets : List Asset
  description : Option Str
  id : Option Str
  author : Option Str
  rating : Option Str
  thumbnail : Option Str
  instances : Option (List SceneInstance)
deriving DecidableEq, Repr

/-- Embedding of `build_scene_json` from `scene_builder.py`, assembled from the factored
locals above. -/
def build_scene_json (objects : List BObject) (settings : ExportSettings) :
    SceneJson where
  name := settings.scene_name
  version := settings.scene_version
  schemaVersion := settings.schema_version
  assets := scene_assets objects settings
  description :=
    if settings.scene_description ≠ [] then some settings.scene_description
    else none
  id :=
    if settings.scene_id ≠ [] then some settings.scene_id
    else some (pyLower (sanitize_filename settings.scene_name))
  author :=
    if settings.scene_author ≠ [] then some settings.scene_author else none
  rating :=
    if settings.scene_rating ≠ [] then some settings.scene_rating else none
  thumbnail :=
    if settings.thumbnail_url ≠ [] then some settings.thumbnail_url else none
  instances :=
    if scene_instances objects settings ≠ [] then
      some (scene_instances objects settings)
    else none

theorem scene_model_asset_of_key (objects : List BObject)
    (settings : ExportSettings) (s p : Str)
    (h : (s, p) ∈ scene_meshes_dict objects settings) :
    ∃ asset ∈ scene_assets objects settings,
      asset.id = s ∧ asset.atype = AssetType.model := by
  refine ⟨Asset.mk s AssetType.model
      (build_asset_uri p settings.base_url settings.export_directory)
      "model/obj".toList, ?_, rfl, rfl⟩
  unfold scene_assets
  apply List.mem_append_left
  apply List.mem_append_left
  exact List.mem_map.mpr ⟨(s, p), h, rfl⟩

/-- C1. Every instance of type `model` in `instances[]` has an `asset` field
equal to the id of some model entry of `assets[]`: model instances are only
emitted for sanitized names that are keys of the mesh export map, and every
key of that map produces a model asset entry. -/
theorem model_instance_asset_valid (objects : List BObject)
    (settings : ExportSettings) (insts : List SceneInstance)
    (i a : Str) (m : Mat4)
    (hinsts : (build_scene_json objects settings).instances = some insts)
    (hmem : SceneInstance.model i a m ∈ insts) :
    ∃ asset ∈ (build_scene_json objects settings).assets,
      asset.id = a ∧ asset.atype = AssetType.model := by
  have hins : insts = scene_instances objects settings := by
    have h2 : (if scene_instances objects settings ≠ [] then
        some (scene_instances objects settings) else none) = some insts := hinsts
    by_cases hne : scene_instances objects settings ≠ []
    · rw [if_pos hne] at h2
      exact (Option.some.inj h2).symm
    · rw [if_neg hne] at h2
      cases h2
  rw [hins] at hmem
  unfold scene_instances at hmem
  rcases List.mem_append.mp hmem with h1 | h1
  · unfold scene_model_instances at h1
    rcases List.mem_filterMap.mp h1 with ⟨obj, _, hf⟩
    dsimp only at hf
    by_cases hsome :
        (pyDictGet (scene_meshes_dict objects settings)
          (sanitize_filename obj.name)).isSome
    · rw [if_pos hsome] at hf
      have heq := Option.some.inj hf
      have hi : sanitize_filename obj.name = i := by
        cases heq
        rfl
      have ha : sanitize_filename obj.name = a := by
        cases heq
        rfl
      rcases Option.isSome_iff_exists.mp hsome with ⟨p, hp⟩
      have hkv := pyDictGet_mem _ _ _ hp
      rcases scene_model_asset_of_key objects settings _ p hkv with
        ⟨asset, hasset, hid, hty⟩
      exact ⟨asset, hasset, by rw [hid, ha], hty⟩
    · rw [if_neg hsome] at hf
      cases hf
  · rcases List.mem_map.mp h1 with ⟨li, _, heq⟩
    exact SceneInstance.noConfusion heq

/-- A mesh object `Cube` whose export succeeds. -/
def demoCube : BObject :=
  ⟨"Cube".toList, .MESH, idMat4, false, true, [], none⟩

/-- Concrete export settings enabling every exporter. -/
def demoSettings : ExportSettings :=
  ⟨"/out".toList, "Scene".toList, [], [], [], [], "1.0".toList, "1.0".toList,
   [], [], true, true, true⟩

/-- Witness for C1: the single-`Cube` scene has a model instance whose
`asset` id is carried by a model asset entry. -/
theorem model_instance_asset_valid_witness :
    ∃ asset ∈ (build_scene_json [demoCube] demoSettings).assets,
      asset.id = "Cube".toList ∧ asset.atype = AssetType.model :=
  model_instance_asset_valid [demoCube] demoSettings
    [SceneInstance.model "Cube".toList "Cube".toList idMat4]
    "Cube".toList "Cube".toList idMat4 (by decide) (by decide)

theorem filter_model_of_map_const_type (ty : AssetType)
    (hty : ty ≠ AssetType.model) (f : Str × Str → Asset)
    (hf : ∀ kv, (f kv).atype = ty) (l : List (Str × Str)) :
    (l.map f).filter (fun a => a.atype = AssetType.model) = [] := by
  induction l with
  | nil => rfl
  | cons kv t ih =>
      rw [List.map_cons, List.filter_cons_of_neg, ih]
      simp [hf kv, hty]

/-- C9. For two distinct mesh objects whose names sanitize to the same
string and whose mesh export succeeds, the builder emits two model
instances with identical `id` and `asset` (each with its own transform),
`assets[]` carries exactly one model asset under that id, and the shared
output file is written twice — last by the second object. -/
theorem duplicate_sanitized_names_spec (o1 o2 : BObject)
    (settings : ExportSettings)
    (h1 : o1.otype = ObjType.MESH) (h2 : o2.otype = ObjType.MESH)
    (he1 : o1.export_ok = true) (he2 : o2.export_ok = true)
    (hs : sanitize_filename o1.name = sanitize_filename o2.name)
    (hn : o1.name ≠ o2.name)
    (hm : settings.export_meshes = true) :
    scene_model_instances [o1, o2] settings
      = [SceneInstance.model (sanitize_filename o1.name)
           (sanitize_filename o1.name) (get_object_transform_matrix o1),
         SceneInstance.model (sanitize_filename o1.name)
           (sanitize_filename o1.name) (get_object_transform_matrix o2)]
    ∧ (build_scene_json [o1, o2] settings).assets.filter
        (fun a => a.atype = AssetType.model)
      = [Asset.mk (sanitize_filename o1.name) AssetType.model
          (build_asset_uri
            (pyJoin (scene_meshes_dir settings)
              (sanitize_filename o1.name ++ ".obj".toList))
            settings.base_url settings.export_directory)
          "model/obj".toList]
    ∧ scene_mesh_writes [o1, o2] settings
      = [(pyJoin (scene_meshes_dir settings)
            (sanitize_filename o1.name ++ ".obj".toList), o1.name),
         (pyJoin (scene_meshes_dir settings)
            (sanitize_filename o1.name ++ ".obj".toList), o2.name)] := by
  have hmo : scene_mesh_objects [o1, o2] = [o1, o2] := by
    simp [scene_mesh_objects, h1, h2]
  have hnemo : scene_mesh_objects [o1, o2] ≠ [] := by
    rw [hmo]
    simp
  have hins1 : pyDictInsert [] (sanitize_filename o1.name)
      (pyJoin (scene_meshes_dir settings)
        (sanitize_filename o1.name ++ ".obj".toList))
      = [(sanitize_filename o1.name,
          pyJoin (scene_meshes_dir settings)
            (sanitize_filename o1.name ++ ".obj".toList))] := by
    simp [pyDictInsert]
  have hins2 : pyDictInsert
      [(sanitize_filename o1.name,
        pyJoin (scene_meshes_dir settings)
          (sanitize_filename o1.name ++ ".obj".toList))]
      (sanitize_filename o1.name)
      (pyJoin (scene_meshes_dir settings)
        (sanitize_filename o1.name ++ ".obj".toList))
      = [(sanitize_filename o1.name,
          pyJoin (scene_meshes_dir settings)
            (sanitize_filename o1.name ++ ".obj".toList))] := by
    simp [pyDictInsert]
  have hexp : export_all_meshes [o1, o2] (scene_meshes_dir settings)
      = ([(sanitize_filename o1.name,
            pyJoin (scene_meshes_dir settings)
              (sanitize_filename o1.name ++ ".obj".toList))],
         [(pyJoin (scene_meshes_dir settings)
             (sanitize_filename o1.name ++ ".obj".toList), o1.name),
          (pyJoin (scene_meshes_dir settings)
             (sanitize_filename o1.name ++ ".obj".toList), o2.name)]) := by
    simp only [export_all_meshes, List.foldl_cons, List.foldl_nil]
    rw [if_pos h1, if_pos h2]
    rw [if_pos he1, if_pos he2, ← hs, hins1, hins2]
    simp
  have hdict : scene_meshes_dict [o1, o2] settings
      = [(sanitize_filename o1.name,
          pyJoin (scene_meshes_dir settings)
            (sanitize_filename o1.name ++ ".obj".toList))] := by
    unfold scene_meshes_dict
    rw [if_pos ⟨hm, hnemo⟩, hmo, hexp]
  have hwr : scene_mesh_writes [o1, o2] settings
      = [(pyJoin (scene_meshes_dir settings)
            (sanitize_filename o1.name ++ ".obj".toList), o1.name),
         (pyJoin (scene_meshes_dir settings)
            (sanitize_filename o1.name ++ ".obj".toList), o2.name)] := by
    unfold scene_mesh_writes
    rw [if_pos ⟨hm, hnemo⟩, hmo, hexp]
  have hget : pyDictGet
      [(sanitize_filename o1.name,
        pyJoin (scene_meshes_dir settings)
          (sanitize_filename o1.name ++ ".obj".toList))]
      (sanitize_filename o1.name)
      = some (pyJoin (scene_meshes_dir settings)
          (sanitize_filename o1.name ++ ".obj".toList)) := by
    simp [pyDictGet]
  refine ⟨?_, ?_, hwr⟩
  · unfold scene_model_instances
    rw [hmo, hdict]
    simp only [List.filterMap_cons, List.filterMap_nil]
    rw [← hs, hget]
    simp
  · show (scene_assets [o1, o2] settings).filter
        (fun a => a.atype = AssetType.model) = _
    unfold scene_assets
    rw [hdict, List.filter_append, List.filter_append]
    rw [filter_model_of_map_const_type AssetType.material (by decide)
        (fun kv => Asset.mk kv.1 AssetType.material
          (build_asset_uri kv.2 settings.base_url settings.export_directory)
          "model/mtl".toList)
        (fun kv => rfl) (scene_materials_dict [o1, o2] settings)]
    rw [filter_model_of_map_const_type AssetType.texture (by decide)
        (fun kv => Asset.mk kv.1 AssetType.texture
          (build_asset_uri kv.2 settings.base_url settings.export_directory)
          (texture_media_type kv.2))
        (fun kv => rfl) (scene_textures_dict [o1, o2] settings)]
    simp

/-- A mesh object `Cube?` (sanitizes to `Cube_`). -/
def demoCubeQ : BObject :=
  ⟨"Cube?".toList, .MESH, idMat4, false, true, [], none⟩

/-- A mesh object `Cube*` (also sanitizes to `Cube_`). -/
def demoCubeStar : BObject :=
  ⟨"Cube*".toList, .MESH,
   ⟨1, 0, 0, 2,
    0, 1, 0, 0,
    0, 0, 1, 0,
    0, 0, 0, 1⟩,
   false, true, [], none⟩

/-- Witness for C9 at the concrete colliding pair `Cube?` / `Cube*`. -/
theorem duplicate_sanitized_names_spec_witness :
    scene_model_instances [demoCubeQ, demoCubeStar] demoSettings
      = [SceneInstance.model (sanitize_filename demoCubeQ.name)
           (sanitize_filename demoCubeQ.name)
           (get_object_transform_matrix demoCubeQ),
         SceneInstance.model (sanitize_filename demoCubeQ.name)
           (sanitize_filename demoCubeQ.name)
           (get_object_transform_matrix demoCubeStar)]
    ∧ (build_scene_json [demoCubeQ, demoCubeStar] demoSettings).assets.filter
        (fun a => a.atype = AssetType.model)
      = [Asset.mk (sanitize_filename demoCubeQ.name) AssetType.model
          (build_asset_uri
            (pyJoin (scene_meshes_dir demoSettings)
              (sanitize_filename demoCubeQ.name ++ ".obj".toList))
            demoSettings.base_url demoSettings.export_directory)
          "model/obj".toList]
    ∧ scene_mesh_writes [demoCubeQ, demoCubeStar] demoSettings
      = [(pyJoin (scene_meshes_dir demoSettings)
            (sanitize_filename demoCubeQ.name ++ ".obj".toList),
          demoCubeQ.name),
         (pyJoin (scene_meshes_dir demoSettings)
            (sanitize_filename demoCubeQ.name ++ ".obj".toList),
          demoCubeStar.name)] :=
  duplicate_sanitized_names_spec demoCubeQ demoCubeStar demoSettings
    rfl rfl rfl rfl (by decide) (by decide) rfl

/-! ## `write_scene_json` (`scene_builder.py`): error handling -/

/-- Result of a Python call: a value or a raised exception. -/
inductive PyResult (α : Type)
  | ok (val : α)
  | exc (msg : Str)
deriving DecidableEq, Repr

/-- Filesystem outcomes for the two fallible statements inside
`write_scene_json`'s `try` block (environment data of the embedding). -/
structure WriteEnv where
  makedirs_ok : Bool
  write_ok : Bool
deriving DecidableEq, Repr

/-- The `try`-block body of `write_scene_json`: `os.makedirs(dirname,
exist_ok=True)`, then `open`/`json.dump` (UTF-8, 2-space indent); either
step may raise. -/
def write_scene_json_body (env : WriteEnv) : PyResult Unit :=
  if env.makedirs_ok then
    if env.write_ok then .ok () else .exc "io error in open or json.dump".toList
  else .exc "os.makedirs failed".toList

/-- Embedding of `write_scene_json` from `scene_builder.py`: returns `True` after the
body completes, `False` from the bare `except` on any exception. -/
def write_scene_json (scene_json : SceneJson) (output_path : Str)
    (env : WriteEnv) : PyResult Bool :=
  match write_scene_json_body env with
  | .ok _ => .ok true
  | .exc _ => .ok false

/-- C10. `write_scene_json` never propagates an exception: for every scene
document, output path and filesystem outcome it returns normally — `True`
exactly when directory creation and the JSON write both succeed, `False`
otherwise. -/
theorem write_scene_json_total (scene_json : SceneJson) (output_path : Str)
    (env : WriteEnv) :
    write_scene_json scene_json output_path env
      = PyResult.ok (env.makedirs_ok && env.write_ok)
    ∧ ∀ msg, write_scene_json scene_json output_path env ≠ PyResult.exc msg := by
  unfold write_scene_json write_scene_json_body
  rcases env with ⟨mk, wr⟩
  cases mk <;> cases wr <;> exact ⟨rfl, fun msg h => PyResult.noConfusion h⟩

/-- Witness for C10 at a concrete environment where both steps succeed. -/
theorem write_scene_json_total_witness :
    write_scene_json (build_scene_json [] demoSettings) "/out/scene.json".toList
        ⟨true, true⟩
      = PyResult.ok (true && true)
    ∧ ∀ msg, write_scene_json (build_scene_json [] demoSettings)
        "/out/scene.json".toList ⟨true, true⟩ ≠ PyResult.exc msg :=
  write_scene_json_total (build_scene_json [] demoSettings)
    "/out/scene.json".toList ⟨true, true⟩
